import Mathlib

/-!
Shallow embedding of `src/ChatClient.py` (class `ChatClient`) and proofs of
the specification claims about it.

Modelling conventions:
* Python dicts that are used as keyed tables (`self.config`) are modelled as
  association lists in insertion order, matching Python dict iteration order.
* The external collaborators — the OpenAI HTTP backend and `json.loads` —
  are parameters of the operations (functions supplied by the caller of the
  Lean definition), since their code is not part of this repository.
* A Python method that may raise is modelled either as returning the new
  object state paired with an `Option PyError` (the raised exception, with
  the state as it was at raise time), or with `Except` when no state survives.
* `stream_chat` is a Python generator function: calling it executes none of
  its body. It is therefore split into `stream_chat` (the call, which only
  builds the suspended generator) and `stream_drain` (consuming the
  generator, which runs the body: the selected-model check, the transcript
  append, the backend request and the yields).
-/

/-- One transcript entry, Python dict of the shape produced by the source:
a role string and a content string. -/
structure Message where
  role : String
  content : String
deriving DecidableEq, Repr

/-- Mirrors the `ModelConfig` dataclass of the source. -/
structure ModelConfig where
  name : String
  id : Nat
  server : String
  url : String
  api_key : String
deriving DecidableEq, Repr

/-- The `OpenAI(api_key=..., base_url=...)` connection object, observable
only through the two arguments it was built from. -/
structure OpenAIConn where
  api_key : String
  base_url : String
deriving DecidableEq, Repr

/-- The mutable state of a `ChatClient` instance. -/
structure ChatClient where
  config : List (Nat × ModelConfig)
  conversation_history : List Message
  selected_model : Option ModelConfig
  client : Option OpenAIConn
deriving DecidableEq, Repr

/-- The exceptions the source raises itself: the two `ValueError`s. -/
inductive PyError where
  | noModelSelected
  | modelNotFound
deriving DecidableEq, Repr

/-- Argument of `set_model_by_id`: either the integer local id or the model
name string. In Python an int never equals a str, so the membership test
`model_identifier in (model.id, model.name)` compares against exactly one of
the two fields, depending on the argument's runtime type. -/
inductive Ident where
  | byId (n : Nat)
  | byName (s : String)
deriving DecidableEq, Repr

/-- The test `model_identifier in (model.id, model.name)` of the source. -/
def identMatches (ident : Ident) (m : ModelConfig) : Bool :=
  match ident with
  | .byId n => n == m.id
  | .byName s => s == m.name

/-- Result of one non-streaming `client.chat.completions.create` call:
either a reply text (from `response.choices[0].message.content`) or an
exception raised by the call. -/
inductive ChatResponse where
  | success (content : String)
  | failure
deriving DecidableEq, Repr

/-- Result of one streaming `client.chat.completions.create` call: either a
stream whose chunks carry the listed delta texts in arrival order, or an
exception raised when starting the call. -/
inductive StreamResponse where
  | chunks (deltas : List String)
  | failure
deriving DecidableEq, Repr

/-- A suspended generator produced by calling the generator function
`stream_chat`; it records the argument, and none of the body has run. -/
structure StreamGen where
  message : String
deriving DecidableEq, Repr

/-- A parsed JSON value, the possible results of `json.loads`. -/
inductive JsonValue where
  | obj (fields : List (String × JsonValue))
  | arr (elements : List JsonValue)
  | str (s : String)
  | num (n : Int)
  | boolean (b : Bool)
  | null

/-- One element of the sequence returned by `client.models.list()`: the
fields the source reads from each model object. -/
structure BackendModel where
  id : String
  owned_by : String
deriving DecidableEq, Repr

/-- Python dict assignment `d[k] = v` on an insertion-ordered dict modelled
as an association list: overwrite in place if the key is present, else
append. -/
def dictInsert (d : List (Nat × ModelConfig)) (k : Nat) (v : ModelConfig) :
    List (Nat × ModelConfig) :=
  if d.any (fun p => p.1 == k) then
    d.map (fun p => if p.1 == k then (k, v) else p)
  else
    d ++ [(k, v)]

/-- The `ModelConfig(...)` construction inside `_load_models_from_api`,
with `n` the id assigned at append time. -/
def mkEntry (api_key base_url : String) (n : Nat) (m : BackendModel) :
    ModelConfig :=
  { name := m.id
    id := n
    server := m.owned_by
    url := base_url
    api_key := api_key }

/-- Embeds `_load_models_from_api`: for each model returned by the listing
endpoint of the server at `base_url` (in listing order), build a
`ModelConfig` with `id = len(self.config) + 1` at append time and store it
under that id. `models` is the list the backend returns for this call. -/
def load_models_from_api (cfg : List (Nat × ModelConfig))
    (api_key base_url : String) (models : List BackendModel) :
    List (Nat × ModelConfig) :=
  models.foldl
    (fun c m => dictInsert c (c.length + 1) (mkEntry api_key base_url (c.length + 1) m))
    cfg

/-- One discovery call as issued by the resolver: the credential and URL it
is made with, and the model list that server returns. -/
structure ServerCall where
  api_key : String
  api_url : String
  models : List BackendModel
deriving DecidableEq, Repr

/-- A sequence of successful discovery calls merged into one running table,
as `_load_config_from_file` does over its `servers` loop. -/
def runDiscoveries (cfg : List (Nat × ModelConfig)) (calls : List ServerCall) :
    List (Nat × ModelConfig) :=
  calls.foldl
    (fun c call => load_models_from_api c call.api_key call.api_url call.models)
    cfg

/-- The entries `_load_models_from_api` appends when the table currently has
`start` entries: an explicit closed form used to state theorems about
`load_models_from_api`. -/
def freshEntries (api_key base_url : String) (start : Nat) :
    List BackendModel → List (Nat × ModelConfig)
  | [] => []
  | m :: rest =>
    (start + 1, mkEntry api_key base_url (start + 1) m)
      :: freshEntries api_key base_url (start + 1) rest

/-- Closed form of the entries a sequence of discovery calls appends to a
table that currently has `start` entries. -/
def discoveredEntries (start : Nat) :
    List ServerCall → List (Nat × ModelConfig)
  | [] => []
  | call :: rest =>
    freshEntries call.api_key call.api_url start call.models
      ++ discoveredEntries (start + call.models.length) rest

/-- Embeds `set_model_by_id`: scan `self.config.values()` in iteration
order, bind the first descriptor matching the identifier or the name and
rebuild `self.client` from it; if none matches, raise `ValueError` — the
loop mutated nothing, so the state at raise time is the original one. -/
def set_model_by_id (c : ChatClient) (ident : Ident) :
    ChatClient × Option PyError :=
  match c.config.find? (fun p => identMatches ident p.2) with
  | some p =>
    ({ c with
        selected_model := some p.2
        client := some { api_key := p.2.api_key, base_url := p.2.url } },
      none)
  | none => (c, some .modelNotFound)

/-- Embeds `chat`. `backend` is the non-streaming completions endpoint: it
receives the model name and the message list the source sends and answers
with a reply or an exception. Returns the new state, the Python return
value (`none` models the bare `return` of the except branch), and the
exception propagated to the caller, if any. -/
def chat (c : ChatClient) (backend : String → List Message → ChatResponse)
    (message : String) : ChatClient × Option String × Option PyError :=
  match c.selected_model with
  | none => (c, none, some .noModelSelected)
  | some m =>
    let c1 :=
      { c with conversation_history :=
          c.conversation_history ++ [{ role := "user", content := message }] }
    match backend m.name c1.conversation_history with
    | .success reply =>
      ({ c1 with conversation_history :=
            c1.conversation_history
              ++ [{ role := "assistant", content := reply }] },
        some reply, none)
    | .failure => (c1, none, none)

/-- Embeds the CALL of the generator function `stream_chat`: Python runs
none of the body, so the state is returned unchanged together with the
suspended generator recording the argument. -/
def stream_chat (c : ChatClient) (message : String) :
    ChatClient × StreamGen :=
  (c, { message := message })

/-- Embeds CONSUMING the generator returned by `stream_chat`: the body runs
from the first `next()` — the selected-model check (raising at that point
if none), the transcript append, then the streaming backend call, yielding
each chunk's delta text in arrival order; if starting the call raises, the
generator yields nothing. Returns the state after draining, the list of
yielded fragments, and the exception raised to the consumer, if any. -/
def stream_drain (c : ChatClient) (g : StreamGen)
    (backend : String → List Message → StreamResponse) :
    ChatClient × List String × Option PyError :=
  match c.selected_model with
  | none => (c, [], some .noModelSelected)
  | some m =>
    let c1 :=
      { c with conversation_history :=
          c.conversation_history ++ [{ role := "user", content := g.message }] }
    match backend m.name c1.conversation_history with
    | .chunks deltas => (c1, deltas, none)
    | .failure => (c1, [], none)

/-- Embeds `json_chat`. `jsonLoads` is the external `json.loads`, `none`
meaning it raises `JSONDecodeError`. The assistant append happens before the
parse, so a parse failure leaves the raw reply in the transcript and the
`except json.JSONDecodeError` branch returns the empty dict; a backend
failure hits the `except Exception` branch and returns Python `None`. -/
def json_chat (c : ChatClient)
    (backend : String → List Message → ChatResponse)
    (jsonLoads : String → Option JsonValue) (message : String) :
    ChatClient × Option JsonValue × Option PyError :=
  match c.selected_model with
  | none => (c, none, some .noModelSelected)
  | some m =>
    let c1 :=
      { c with conversation_history :=
          c.conversation_history ++ [{ role := "user", content := message }] }
    match backend m.name c1.conversation_history with
    | .failure => (c1, none, none)
    | .success reply =>
      let c2 :=
        { c1 with conversation_history :=
            c1.conversation_history
              ++ [{ role := "assistant", content := reply }] }
      match jsonLoads reply with
      | some v => (c2, some v, none)
      | none => (c2, some (JsonValue.obj []), none)

/-- One entry of the `servers` mapping of the configuration file; either
field may be absent (`server_data.get` with `""` default in the source). -/
structure ServerEntry where
  api_key : Option String
  api_url : Option String
deriving DecidableEq, Repr

/-- The parsed configuration document: its `servers` mapping in document
order (a missing `servers` key behaves as the empty mapping, since the
source uses `config.get("servers", \x7b\x7d)`). -/
structure ConfigDoc where
  servers : List (String × ServerEntry)
deriving DecidableEq, Repr

/-- What reading and parsing the file at the given path yields: the file is
missing (`FileNotFoundError`), or unparsable (`json.JSONDecodeError`), or a
parsed document. -/
inductive FileRead where
  | missing
  | unparsable
  | parsed (doc : ConfigDoc)
deriving DecidableEq, Repr

/-- Observable outcome of `_load_config_from_file`:
* `exitNonzero msg` — the source printed `msg` and called `exit(1)`;
* `attrErrorInHandler` — an `AttributeError` escaped from an except
  handler itself (see `load_config_from_file` on the missing-file case);
* `ok queried table` — normal return, recording each `(api_key, api_url)`
  pair a discovery call was issued with, in order, and the final table. -/
inductive LoadOutcome where
  | exitNonzero (msg : String)
  | attrErrorInHandler
  | ok (queried : List (String × String)) (table : List (Nat × ModelConfig))
deriving DecidableEq, Repr

/-- Message printed for an unparsable configuration file. -/
def cfgMalformedMsg : String := "错误：配置文件格式不正确"

/-- Message printed for a configuration file defining no servers. -/
def noServersMsg : String := "错误：配置文件中未定义任何服务端"

/-- Embeds `_load_config_from_file`. On `FileNotFoundError` the handler
formats its message with `self.config_path` — an attribute no code of the
class ever sets (the constructor only has the local parameter
`config_path`) — so the f-string raises `AttributeError` before the print
and the `exit(1)` are reached. The other two fatal branches print and call
`exit(1)`. On a parsed document, each server entry (document order) gets one
discovery call with `server_data.get("api_key", "")` and
`server_data.get("api_url", "")`, merging into one running table. `backend`
maps the credential/URL pair of a call to the model list that server
returns. -/
def load_config_from_file (file : FileRead)
    (backend : String → String → List BackendModel) : LoadOutcome :=
  match file with
  | .missing => .attrErrorInHandler
  | .unparsable => .exitNonzero cfgMalformedMsg
  | .parsed doc =>
    if doc.servers.isEmpty then
      .exitNonzero noServersMsg
    else
      .ok
        (doc.servers.map fun p =>
          (p.2.api_key.getD "", p.2.api_url.getD ""))
        (runDiscoveries []
          (doc.servers.map fun p =>
            { api_key := p.2.api_key.getD ""
              api_url := p.2.api_url.getD ""
              models := backend (p.2.api_key.getD "") (p.2.api_url.getD "") }))

/-- Embeds `chat_cleanup`. -/
def chat_cleanup (c : ChatClient) : ChatClient :=
  { c with conversation_history := [] }

/-- Embeds `get_history`. -/
def get_history (c : ChatClient) : List Message :=
  c.conversation_history

/-- Embeds `append_history`. -/
def append_history (c : ChatClient) (role content : String) : ChatClient :=
  { c with conversation_history :=
      c.conversation_history ++ [{ role := role, content := content }] }

/-- A concrete descriptor used by witnesses. -/
def sampleModel : ModelConfig :=
  { name := "gpt-a", id := 1, server := "srv", url := "http://x", api_key := "k" }

/-- A concrete session with one discovered model selected, used by
witnesses and counterexamples. -/
def sampleClient : ChatClient :=
  { config := [(1, sampleModel)]
    conversation_history := []
    selected_model := some sampleModel
    client := some { api_key := "k", base_url := "http://x" } }

/-- A concrete session with no model selected, used by witnesses. -/
def sampleClientNoModel : ChatClient :=
  { config := []
    conversation_history := []
    selected_model := none
    client := none }

/-- A non-streaming backend that always replies with the text ok. -/
def sampleBackendOk : String → List Message → ChatResponse :=
  fun _ _ => .success "ok"

/-- A non-streaming backend whose call always raises. -/
def sampleBackendFail : String → List Message → ChatResponse :=
  fun _ _ => .failure

/-- A streaming backend that always yields two fragments. -/
def sampleStreamBackend : String → List Message → StreamResponse :=
  fun _ _ => .chunks ["he", "llo"]

/-- A model of json.loads that fails on every input. -/
def jsonLoadsNone : String → Option JsonValue :=
  fun _ => none

/-- C2: with a model selected, a successful chat call appends the user
message and then the assistant reply (roles user then assistant), growing
the transcript by exactly 2, and returns the reply text with no exception. -/
theorem chat_success_appends_two (c : ChatClient) (m : ModelConfig)
    (backend : String → List Message → ChatResponse) (message reply : String)
    (hm : c.selected_model = some m)
    (hb : backend m.name
        (c.conversation_history ++ [{ role := "user", content := message }])
        = .success reply) :
    chat c backend message =
      ({ c with conversation_history :=
          c.conversation_history
            ++ [{ role := "user", content := message },
                { role := "assistant", content := reply }] },
        some reply, none) ∧
    (chat c backend message).1.conversation_history.length
      = c.conversation_history.length + 2 := by
  have h : chat c backend message =
      ({ c with conversation_history :=
          c.conversation_history
            ++ [{ role := "user", content := message },
                { role := "assistant", content := reply }] },
        some reply, none) := by
    unfold chat
    rw [hm]
    simp only [hb, List.append_assoc, List.cons_append, List.nil_append]
  exact ⟨h, by rw [h]; simp⟩

/-- Closed witness for chat_success_appends_two at a concrete session. -/
theorem chat_success_appends_two_witness :
    chat sampleClient sampleBackendOk "hi" =
      ({ sampleClient with conversation_history :=
          sampleClient.conversation_history
            ++ [{ role := "user", content := "hi" },
                { role := "assistant", content := "ok" }] },
        some "ok", none) ∧
    (chat sampleClient sampleBackendOk "hi").1.conversation_history.length
      = sampleClient.conversation_history.length + 2 :=
  chat_success_appends_two sampleClient sampleModel sampleBackendOk "hi" "ok"
    rfl rfl

/-- C3: with a model selected, a failed backend call inside chat leaves the
just-appended user turn in the transcript (growth exactly 1) and the method
returns Python None without raising. -/
theorem chat_failure_keeps_user_turn (c : ChatClient) (m : ModelConfig)
    (backend : String → List Message → ChatResponse) (message : String)
    (hm : c.selected_model = some m)
    (hb : backend m.name
        (c.conversation_history ++ [{ role := "user", content := message }])
        = .failure) :
    chat c backend message =
      ({ c with conversation_history :=
          c.conversation_history ++ [{ role := "user", content := message }] },
        none, none) ∧
    (chat c backend message).1.conversation_history.length
      = c.conversation_history.length + 1 := by
  have h : chat c backend message =
      ({ c with conversation_history :=
          c.conversation_history ++ [{ role := "user", content := message }] },
        none, none) := by
    unfold chat
    rw [hm]
    simp only [hb]
  exact ⟨h, by rw [h]; simp⟩

/-- Closed witness for chat_failure_keeps_user_turn at a concrete session. -/
theorem chat_failure_keeps_user_turn_witness :
    chat sampleClient sampleBackendFail "hi" =
      ({ sampleClient with conversation_history :=
          sampleClient.conversation_history
            ++ [{ role := "user", content := "hi" }] },
        none, none) ∧
    (chat sampleClient sampleBackendFail "hi").1.conversation_history.length
      = sampleClient.conversation_history.length + 1 :=
  chat_failure_keeps_user_turn sampleClient sampleModel sampleBackendFail "hi"
    rfl rfl

/-- C6: with a model selected, when the backend call in json_chat succeeds
but the reply does not parse as JSON, the raw reply is still appended as
the assistant turn (transcript grows by exactly 2) and the method returns
the empty dict. -/
theorem json_chat_parse_failure (c : ChatClient) (m : ModelConfig)
    (backend : String → List Message → ChatResponse)
    (jsonLoads : String → Option JsonValue) (message reply : String)
    (hm : c.selected_model = some m)
    (hb : backend m.name
        (c.conversation_history ++ [{ role := "user", content := message }])
        = .success reply)
    (hp : jsonLoads reply = none) :
    json_chat c backend jsonLoads message =
      ({ c with conversation_history :=
          c.conversation_history
            ++ [{ role := "user", content := message },
                { role := "assistant", content := reply }] },
        some (JsonValue.obj []), none) ∧
    (json_chat c backend jsonLoads message).1.conversation_history.length
      = c.conversation_history.length + 2 := by
  have h : json_chat c backend jsonLoads message =
      ({ c with conversation_history :=
          c.conversation_history
            ++ [{ role := "user", content := message },
                { role := "assistant", content := reply }] },
        some (JsonValue.obj []), none) := by
    unfold json_chat
    rw [hm]
    simp only [hb, hp, List.append_assoc, List.cons_append, List.nil_append]
  exact ⟨h, by rw [h]; simp⟩

/-- Closed witness for json_chat_parse_failure at a concrete session. -/
theorem json_chat_parse_failure_witness :
    json_chat sampleClient sampleBackendOk jsonLoadsNone "hi" =
      ({ sampleClient with conversation_history :=
          sampleClient.conversation_history
            ++ [{ role := "user", content := "hi" },
                { role := "assistant", content := "ok" }] },
        some (JsonValue.obj []), none) ∧
    (json_chat sampleClient sampleBackendOk jsonLoadsNone "hi").1.conversation_history.length
      = sampleClient.conversation_history.length + 2 :=
  json_chat_parse_failure sampleClient sampleModel sampleBackendOk jsonLoadsNone
    "hi" "ok" rfl rfl rfl

/-- C7: when the argument matches neither the local id nor the display name
of any descriptor in the table, set_model_by_id raises ValueError and the
session state — in particular the selected model and the connection — is
exactly the original one. -/
theorem set_model_not_found (c : ChatClient) (ident : Ident)
    (h : ∀ p ∈ c.config, identMatches ident p.2 = false) :
    set_model_by_id c ident = (c, some PyError.modelNotFound) := by
  unfold set_model_by_id
  have hn : c.config.find? (fun p => identMatches ident p.2) = none := by
    rw [List.find?_eq_none]
    intro p hp
    simp [h p hp]
  rw [hn]

/-- Closed witness for set_model_not_found at a concrete session. -/
theorem set_model_not_found_witness :
    (∀ p ∈ sampleClient.config, identMatches (Ident.byName "nope") p.2 = false)
      ∧ set_model_by_id sampleClient (Ident.byName "nope")
          = (sampleClient, some PyError.modelNotFound) :=
  ⟨by decide, set_model_not_found sampleClient (Ident.byName "nope") (by decide)⟩

/-- C9: stream_chat is a generator function, so calling it with no model
selected raises nothing and mutates nothing; the ValueError surfaces only
when the sequence is first consumed, and the transcript is untouched even
then. -/
theorem stream_chat_defers_check (c : ChatClient) (message : String)
    (backend : String → List Message → StreamResponse)
    (h : c.selected_model = none) :
    stream_chat c message = (c, { message := message }) ∧
    stream_drain c { message := message } backend
      = (c, [], some PyError.noModelSelected) := by
  refine ⟨rfl, ?_⟩
  unfold stream_drain
  rw [h]

/-- Closed witness for stream_chat_defers_check at a concrete session. -/
theorem stream_chat_defers_check_witness :
    sampleClientNoModel.selected_model = none ∧
    (stream_chat sampleClientNoModel "hi"
        = (sampleClientNoModel, { message := "hi" }) ∧
      stream_drain sampleClientNoModel { message := "hi" } sampleStreamBackend
        = (sampleClientNoModel, [], some PyError.noModelSelected)) :=
  ⟨rfl, stream_chat_defers_check sampleClientNoModel "hi" sampleStreamBackend rfl⟩

/-- C1 counterexample: in a concrete session with a selected model, calling
stream_chat appends nothing to the transcript — the claimed call-time append
of the user message does not happen (the body of a generator function does
not run at call time). -/
theorem stream_chat_call_does_not_append :
    ¬ ((stream_chat sampleClient "hi").1.conversation_history
        = sampleClient.conversation_history
            ++ [{ role := "user", content := "hi" }]) := by
  decide

/-- C1 amended: calling stream_chat leaves the session unchanged and returns
the suspended generator; the user message is appended when the first element
of the sequence is requested — at that point it precedes any network
activity (the backend request already carries it) — and the consumed
sequence yields the backend's fragments in arrival order. -/
theorem stream_appends_at_first_request (c : ChatClient) (m : ModelConfig)
    (message : String) (backend : String → List Message → StreamResponse)
    (deltas : List String)
    (hm : c.selected_model = some m)
    (hb : backend m.name
        (c.conversation_history ++ [{ role := "user", content := message }])
        = .chunks deltas) :
    stream_chat c message = (c, { message := message }) ∧
    stream_drain c { message := message } backend
      = ({ c with conversation_history :=
            c.conversation_history
              ++ [{ role := "user", content := message }] },
          deltas, none) := by
  refine ⟨rfl, ?_⟩
  unfold stream_drain
  rw [hm]
  simp only [hb]

/-- Closed witness for stream_appends_at_first_request at a concrete
session. -/
theorem stream_appends_at_first_request_witness :
    stream_chat sampleClient "hi" = (sampleClient, { message := "hi" }) ∧
    stream_drain sampleClient { message := "hi" } sampleStreamBackend
      = ({ sampleClient with conversation_history :=
            sampleClient.conversation_history
              ++ [{ role := "user", content := "hi" }] },
          ["he", "llo"], none) :=
  stream_appends_at_first_request sampleClient sampleModel "hi"
    sampleStreamBackend ["he", "llo"] rfl rfl

/-- C8: the three fatal branches of the config-file loader. An unparsable
file and an empty server list are reported and exit with status 1, but a
missing file never reaches its report: the handler's f-string reads the
attribute self.config_path, which nothing ever sets, so an AttributeError
escapes instead of the ConfigNotFound report and exit. -/
theorem load_config_fatal_paths
    (backend : String → String → List BackendModel) :
    load_config_from_file .missing backend = .attrErrorInHandler ∧
    load_config_from_file .unparsable backend = .exitNonzero cfgMalformedMsg ∧
    load_config_from_file (.parsed { servers := [] }) backend
      = .exitNonzero noServersMsg :=
  ⟨rfl, rfl, rfl⟩

/-- C10: a server entry with both api_key and api_url absent is not rejected
as malformed: the loader substitutes the empty string for each missing field
and still issues the discovery call with those empty values. -/
theorem missing_server_fields_default_to_empty
    (backend : String → String → List BackendModel) (name : String) :
    load_config_from_file
        (.parsed { servers := [(name, { api_key := none, api_url := none })] })
        backend
      = .ok [("", "")] (load_models_from_api [] "" "" (backend "" "")) :=
  rfl

/-- Helper: freshEntries produces one entry per backend model. -/
theorem freshEntries_length (api_key base_url : String)
    (ms : List BackendModel) :
    ∀ start, (freshEntries api_key base_url start ms).length = ms.length := by
  induction ms with
  | nil => intro start; rfl
  | cons m rest ih => intro start; simp [freshEntries, ih]

/-- Helper: the keys of freshEntries are the run start+1, ..., start+k. -/
theorem freshEntries_keys (api_key base_url : String)
    (ms : List BackendModel) :
    ∀ start, (freshEntries api_key base_url start ms).map Prod.fst
      = List.range' (start + 1) ms.length := by
  induction ms with
  | nil => intro start; rfl
  | cons m rest ih =>
    intro start
    simp [freshEntries, ih, List.range'_succ]

/-- Helper: the descriptor names of freshEntries are the backend model ids
in listing order. -/
theorem freshEntries_names (api_key base_url : String)
    (ms : List BackendModel) :
    ∀ start, (freshEntries api_key base_url start ms).map (fun p => p.2.name)
      = ms.map (fun m => m.id) := by
  induction ms with
  | nil => intro start; rfl
  | cons m rest ih =>
    intro start
    simp [freshEntries, ih, mkEntry]

/-- Helper: on a table whose keys are the contiguous run 1..len, one
discovery call only appends, producing the freshEntries block. -/
theorem load_models_from_api_eq (api_key base_url : String)
    (ms : List BackendModel) :
    ∀ cfg : List (Nat × ModelConfig),
      cfg.map Prod.fst = List.range' 1 cfg.length →
      load_models_from_api cfg api_key base_url ms
        = cfg ++ freshEntries api_key base_url cfg.length ms := by
  induction ms with
  | nil =>
    intro cfg h
    simp [load_models_from_api, freshEntries]
  | cons m rest ih =>
    intro cfg h
    have hnotin : (cfg.any fun p => p.1 == cfg.length + 1) = false := by
      rw [List.any_eq_false]
      intro p hp
      simp only [beq_iff_eq]
      intro hk
      have hmem : p.1 ∈ cfg.map Prod.fst := List.mem_map_of_mem Prod.fst hp
      rw [h, hk] at hmem
      obtain ⟨i, hi, hie⟩ := List.mem_range'.1 hmem
      omega
    have hins : dictInsert cfg (cfg.length + 1)
        (mkEntry api_key base_url (cfg.length + 1) m)
        = cfg ++ [(cfg.length + 1, mkEntry api_key base_url (cfg.length + 1) m)] := by
      unfold dictInsert
      rw [hnotin]
      simp
    have hkeys : (cfg ++ [(cfg.length + 1, mkEntry api_key base_url (cfg.length + 1) m)]).map Prod.fst
        = List.range' 1 (cfg ++ [(cfg.length + 1, mkEntry api_key base_url (cfg.length + 1) m)]).length := by
      rw [List.map_append, h, List.length_append]
      simp [List.range'_1_concat, Nat.add_comm]
    have hstep : load_models_from_api cfg api_key base_url (m :: rest)
        = load_models_from_api
            (cfg ++ [(cfg.length + 1, mkEntry api_key base_url (cfg.length + 1) m)])
            api_key base_url rest := by
      simp only [load_models_from_api, List.foldl_cons]
      rw [hins]
    rw [hstep, ih _ hkeys]
    simp [freshEntries, List.length_append]

/-- Helper: the keys of discoveredEntries are the run start+1, ...,
start+total, where total sums the model counts of all calls. -/
theorem discoveredEntries_keys (calls : List ServerCall) :
    ∀ start, (discoveredEntries start calls).map Prod.fst
      = List.range' (start + 1) ((calls.map fun call => call.models.length).sum) := by
  induction calls with
  | nil => intro start; rfl
  | cons call rest ih =>
    intro start
    have e1 : start + call.models.length + 1 = start + 1 + call.models.length := by
      omega
    simp only [discoveredEntries, List.map_append, freshEntries_keys, ih,
      List.map_cons, List.sum_cons, e1, List.range'_append_1]
    congr 1
    omega

/-- Helper: the descriptor names of discoveredEntries are all the model ids,
in query order then listing order. -/
theorem discoveredEntries_names (calls : List ServerCall) :
    ∀ start, (discoveredEntries start calls).map (fun p => p.2.name)
      = (calls.map fun call => call.models.map fun m => m.id).flatten := by
  induction calls with
  | nil => intro start; rfl
  | cons call rest ih =>
    intro start
    simp [discoveredEntries, freshEntries_names, ih]

/-- Helper: a sequence of discovery calls on a table whose keys are the
contiguous run 1..len appends exactly the discoveredEntries block. -/
theorem runDiscoveries_eq (calls : List ServerCall) :
    ∀ cfg : List (Nat × ModelConfig),
      cfg.map Prod.fst = List.range' 1 cfg.length →
      runDiscoveries cfg calls = cfg ++ discoveredEntries cfg.length calls := by
  induction calls with
  | nil =>
    intro cfg h
    simp [runDiscoveries, discoveredEntries]
  | cons call rest ih =>
    intro cfg h
    have h1 := load_models_from_api_eq call.api_key call.api_url call.models cfg h
    have hkeys : (cfg ++ freshEntries call.api_key call.api_url cfg.length call.models).map Prod.fst
        = List.range' 1 (cfg ++ freshEntries call.api_key call.api_url cfg.length call.models).length := by
      rw [List.map_append, h, freshEntries_keys, List.length_append,
        freshEntries_length]
      have e1 : cfg.length + 1 = 1 + cfg.length := by omega
      rw [e1, List.range'_append_1]
      congr 1
      omega
    have hstep : runDiscoveries cfg (call :: rest)
        = runDiscoveries (cfg ++ freshEntries call.api_key call.api_url cfg.length call.models) rest := by
      simp only [runDiscoveries, List.foldl_cons]
      rw [← h1]
    rw [hstep, ih _ hkeys]
    simp [discoveredEntries, List.length_append, freshEntries_length]

/-- C4: starting from an empty table, any sequence of successful discovery
calls yields a table whose keys are exactly the contiguous run 1..N in
order, N the total number of models across all queried servers, and whose
descriptors carry the backend model names in query order then per-server
listing order. -/
theorem discovery_table_keys_contiguous (calls : List ServerCall) :
    (runDiscoveries [] calls).map Prod.fst
      = List.range' 1 ((calls.map fun call => call.models.length).sum) ∧
    (runDiscoveries [] calls).map (fun p => p.2.name)
      = (calls.map fun call => call.models.map fun m => m.id).flatten := by
  have h := runDiscoveries_eq calls [] rfl
  rw [h]
  constructor
  · simpa using discoveredEntries_keys calls 0
  · simpa using discoveredEntries_names calls 0

/-- C5: re-running the same discovery (non-empty model list) on top of the
table left by a first run strictly grows the table, and every identifier
assigned by the first run still looks up to the same descriptor. -/
theorem resolve_twice_additive (api_key base_url : String)
    (ms : List BackendModel) (h : ms ≠ []) :
    (load_models_from_api [] api_key base_url ms).length
      < (load_models_from_api (load_models_from_api [] api_key base_url ms)
          api_key base_url ms).length ∧
    ∀ n : Nat, ∀ q : Nat × ModelConfig,
      (load_models_from_api [] api_key base_url ms).find?
          (fun p => p.1 == n) = some q →
      (load_models_from_api (load_models_from_api [] api_key base_url ms)
          api_key base_url ms).find? (fun p => p.1 == n) = some q := by
  have h1 := load_models_from_api_eq api_key base_url ms [] rfl
  have hkeys : (load_models_from_api [] api_key base_url ms).map Prod.fst
      = List.range' 1 (load_models_from_api [] api_key base_url ms).length := by
    rw [h1]
    simp [freshEntries_keys, freshEntries_length]
  have h2 := load_models_from_api_eq api_key base_url ms
    (load_models_from_api [] api_key base_url ms) hkeys
  constructor
  · rw [h2, List.length_append, freshEntries_length]
    have : 0 < ms.length := List.length_pos.2 h
    omega
  · intro n q hq
    rw [h2, List.find?_append, hq, Option.or_some]

/-- Closed witness for resolve_twice_additive at a one-model discovery. -/
theorem resolve_twice_additive_witness :
    ([{ id := "gpt-a", owned_by := "srv" }] : List BackendModel) ≠ [] ∧
    ((load_models_from_api [] "k" "u" [{ id := "gpt-a", owned_by := "srv" }]).length
      < (load_models_from_api
          (load_models_from_api [] "k" "u" [{ id := "gpt-a", owned_by := "srv" }])
          "k" "u" [{ id := "gpt-a", owned_by := "srv" }]).length ∧
    ∀ n : Nat, ∀ q : Nat × ModelConfig,
      (load_models_from_api [] "k" "u" [{ id := "gpt-a", owned_by := "srv" }]).find?
          (fun p => p.1 == n) = some q →
      (load_models_from_api
          (load_models_from_api [] "k" "u" [{ id := "gpt-a", owned_by := "srv" }])
          "k" "u" [{ id := "gpt-a", owned_by := "srv" }]).find?
          (fun p => p.1 == n) = some q) :=
  ⟨by decide,
    resolve_twice_additive "k" "u" [{ id := "gpt-a", owned_by := "srv" }]
      (by decide)⟩
